import Mathlib

/-!
Shallow embedding of the MasterpackCarton solver core.

JavaScript numbers are modelled by `ℚ` (all the programs' arithmetic on the
inputs considered here is exact), `Math.floor` by `Int.floor`, and the JS `%`
remainder (sign of the dividend) by `Int.tmod`.  Fallible results are explicit
variants.  Sources:
  * `innerPack` solver and pallet stacker: `src/unnamed/part_001`
  * multi-SKU optimizer: `src/src/solver/multiSkuOptimizer.js`
-/

/-- Three rational extents, as the `{L, W, H}` records of the source. -/
structure Dims3 where
  L : ℚ
  W : ℚ
  H : ℚ
deriving DecidableEq, Repr

/-- Per-axis squish (compression) fractions, `solver.squish_pct` in the config. -/
structure SquishPct where
  x : ℚ
  y : ℚ
  z : ℚ
deriving DecidableEq, Repr

/-- The `masterpack` section of the configuration record. -/
structure Masterpack where
  external : Dims3
  wall_thickness_in : ℚ
  tare_lb : ℚ
deriving DecidableEq, Repr

/-- The `solver` section of the configuration record. -/
structure SolverCfg where
  squish_pct : SquishPct
  prefer_multiples_of : ℤ
  max_overhang_in : ℚ
deriving DecidableEq, Repr

/-- The `pallet` section of the configuration record (`L`, `W`, `H`). -/
structure Pallet where
  L : ℚ
  W : ℚ
  H : ℚ
deriving DecidableEq, Repr

/-- The configuration object threaded through the solvers. -/
structure Config where
  masterpack : Masterpack
  solver : SolverCfg
  pallet : Pallet
deriving DecidableEq, Repr

/-- A catalog product record (the fields of a SKU that the solver core reads).
`current_baseline` is `sku.current_baseline || 0`: a missing baseline is 0. -/
structure Sku where
  sku : String
  L : ℚ
  W : ℚ
  H : ℚ
  oz : ℚ
  current_baseline : ℚ
deriving DecidableEq, Repr

/-- The six axis-permutation labels `'LWH', 'LHW', 'WLH', 'WHL', 'HLW', 'HWL'`. -/
inductive Rot where
  | LWH | LHW | WLH | WHL | HLW | HWL
deriving DecidableEq, Repr

/-- The rotation list of `findBestArrangement`, in source order. -/
def rotList : List Rot := [.LWH, .LHW, .WLH, .WHL, .HLW, .HWL]

/-- `{ L: unitDims[rotation[0]], W: unitDims[rotation[1]], H: unitDims[rotation[2]] }`. -/
def rotDims (u : Dims3) : Rot → Dims3
  | .LWH => ⟨u.L, u.W, u.H⟩
  | .LHW => ⟨u.L, u.H, u.W⟩
  | .WLH => ⟨u.W, u.L, u.H⟩
  | .WHL => ⟨u.W, u.H, u.L⟩
  | .HLW => ⟨u.H, u.L, u.W⟩
  | .HWL => ⟨u.H, u.W, u.L⟩

/-- `calculateInternalDims` (innerPack): external minus twice the wall thickness. -/
def calculateInternalDims (externalDims : Dims3) (wallThickness : ℚ) : Dims3 :=
  { L := externalDims.L - 2 * wallThickness
  , W := externalDims.W - 2 * wallThickness
  , H := externalDims.H - 2 * wallThickness }

/-- Result record of `tryRotation`. -/
structure TryRotationResult where
  rotation : Rot
  nx : ℤ
  ny : ℤ
  nz : ℤ
  count : ℤ
  utilization : ℚ
  rotatedDims : Dims3
  adjustedDims : Dims3
deriving DecidableEq, Repr

/-- `tryRotation` (innerPack): rotate, squish, floor-divide per axis, and
compute count and volumetric utilization. -/
def tryRotation (unitDims internalDims : Dims3) (rotation : Rot)
    (squishPct : SquishPct) : TryRotationResult :=
  let rotated := rotDims unitDims rotation
  let adjusted : Dims3 :=
    { L := rotated.L * (1 - squishPct.x)
    , W := rotated.W * (1 - squishPct.y)
    , H := rotated.H * (1 - squishPct.z) }
  let nx : ℤ := ⌊internalDims.L / adjusted.L⌋
  let ny : ℤ := ⌊internalDims.W / adjusted.W⌋
  let nz : ℤ := ⌊internalDims.H / adjusted.H⌋
  let count := nx * ny * nz
  let usedVolume : ℚ := (count : ℚ) * (adjusted.L * adjusted.W * adjusted.H)
  let availableVolume : ℚ := internalDims.L * internalDims.W * internalDims.H
  { rotation := rotation, nx := nx, ny := ny, nz := nz, count := count
  , utilization := usedVolume / availableVolume
  , rotatedDims := rotated, adjustedDims := adjusted }

/-- `scoreArrangement` (innerPack): preferred-multiple bonus, utilization
reward, layer-count penalty.  JS `%` is `Int.tmod`. -/
def scoreArrangement (a : TryRotationResult) (preferMultiplesOf : ℤ) : ℚ :=
  let isPreferredMultiple := a.count.tmod preferMultiplesOf = 0
  let distanceToMultiple := a.count.tmod preferMultiplesOf
  (if isPreferredMultiple then (1000 : ℚ)
   else ((preferMultiplesOf - distanceToMultiple : ℤ) : ℚ) * 10)
    + a.utilization * 500 - (a.nz : ℚ) * (1 / 10)

/-- An arrangement paired with its score (`{ ...arr, score }`). -/
structure ScoredArrangement where
  arr : TryRotationResult
  score : ℚ
deriving DecidableEq, Repr

/-- Head of the stable descending sort by score: the earliest element of
maximal score (`sort((a, b) => b.score - a.score)` then `[0]`). -/
def pickBest (x : ScoredArrangement) (xs : List ScoredArrangement) : ScoredArrangement :=
  xs.foldl (fun acc y => if y.score > acc.score then y else acc) x

/-- Axis labels pushed by `findFailingAxis` (either real axes or `'all'`). -/
inductive AxisTag where
  | L | W | H | all
deriving DecidableEq, Repr

/-- `findFailingAxis` (innerPack): compare the unit's smallest extent against
every internal axis extent; fall back to `['all']`. -/
def findFailingAxis (unitDims internalDims : Dims3) : List AxisTag :=
  let minUnitDim := min unitDims.L (min unitDims.W unitDims.H)
  let failing : List AxisTag :=
    (if minUnitDim > internalDims.L then [AxisTag.L] else [])
      ++ (if minUnitDim > internalDims.W then [AxisTag.W] else [])
      ++ (if minUnitDim > internalDims.H then [AxisTag.H] else [])
  if failing.isEmpty then [AxisTag.all] else failing

/-- The payload of a successful `findBestArrangement` result. -/
structure ArrangementFit where
  rotation : Rot
  nx : ℤ
  ny : ℤ
  nz : ℤ
  count : ℤ
  utilization : ℚ
  rotatedDims : Dims3
  adjustedDims : Dims3
  score : ℚ
  unitWeightLb : ℚ
  totalProductWeight : ℚ
  grossCaseWeight : ℚ
  isLowDensity : Bool
  isHeavy : Bool
  internalDims : Dims3
deriving DecidableEq, Repr

/-- Result variant of `findBestArrangement`: `{ fits: false, ... }` or
`{ fits: true, ... }`. -/
inductive FitResult where
  | noFit (reason : String) (failingAxis : List AxisTag)
  | fit (a : ArrangementFit)
deriving DecidableEq, Repr

/-- The `fits` field. -/
def FitResult.fits : FitResult → Bool
  | .noFit _ _ => false
  | .fit _ => true

/-- The `count` read under a `fits` guard (`result.fits ? result.count : 0`). -/
def FitResult.count : FitResult → ℤ
  | .noFit _ _ => 0
  | .fit a => a.count

/-- The `utilization` read under a `fits` guard. -/
def FitResult.utilization : FitResult → ℚ
  | .noFit _ _ => 0
  | .fit a => a.utilization

/-- The `failingAxis` field of a no-fit result. -/
def FitResult.failingAxis : FitResult → List AxisTag
  | .noFit _ ax => ax
  | .fit _ => []

/-- `findBestArrangement` (innerPack): try all six rotations, keep those with
positive count, return the highest-scoring one with weight data, or a no-fit
record naming the failing axes. -/
def findBestArrangement (sku : Sku) (config : Config) : FitResult :=
  let internalDims :=
    calculateInternalDims config.masterpack.external config.masterpack.wall_thickness_in
  let unitDims : Dims3 := ⟨sku.L, sku.W, sku.H⟩
  let arrangements :=
    rotList.map (fun rotation => tryRotation unitDims internalDims rotation config.solver.squish_pct)
  let validArrangements := arrangements.filter (fun a => 0 < a.count)
  match validArrangements with
  | [] => .noFit "SKU dimensions too large for masterpack" (findFailingAxis unitDims internalDims)
  | v :: vs =>
    let withScore := fun a =>
      ScoredArrangement.mk a (scoreArrangement a config.solver.prefer_multiples_of)
    let best := pickBest (withScore v) (vs.map withScore)
    let unitWeightLb := sku.oz / 16
    let totalProductWeight := (best.arr.count : ℚ) * unitWeightLb
    let grossCaseWeight := totalProductWeight + config.masterpack.tare_lb
    .fit
      { rotation := best.arr.rotation, nx := best.arr.nx, ny := best.arr.ny, nz := best.arr.nz
      , count := best.arr.count, utilization := best.arr.utilization
      , rotatedDims := best.arr.rotatedDims, adjustedDims := best.arr.adjustedDims
      , score := best.score
      , unitWeightLb := unitWeightLb
      , totalProductWeight := totalProductWeight
      , grossCaseWeight := grossCaseWeight
      , isLowDensity := decide (best.arr.count < 20)
      , isHeavy := decide (grossCaseWeight > 40)
      , internalDims := internalDims }

/-- A per-layer option record of `calculateColumnPattern` (pallet stacker).
`exceedsOverhang` is absent in the source objects until the fallback branch
spreads it in; an absent flag reads as `false` (`|| false`). -/
structure LayerOption where
  wide : ℤ
  long : ℤ
  overhangW : ℚ
  overhangL : ℚ
  exceedsOverhang : Bool := false
deriving DecidableEq, Repr

/-- `option1` of `calculateColumnPattern`: the unrotated orientation. -/
def columnOption1 (caseDims : Dims3) (palletDims : Pallet) : LayerOption :=
  { wide := ⌊palletDims.W / caseDims.W⌋
  , long := ⌊palletDims.L / caseDims.L⌋
  , overhangW := palletDims.W - (⌊palletDims.W / caseDims.W⌋ : ℚ) * caseDims.W
  , overhangL := palletDims.L - (⌊palletDims.L / caseDims.L⌋ : ℚ) * caseDims.L }

/-- `option2` of `calculateColumnPattern`: the 90°-rotated orientation. -/
def columnOption2 (caseDims : Dims3) (palletDims : Pallet) : LayerOption :=
  { wide := ⌊palletDims.W / caseDims.L⌋
  , long := ⌊palletDims.L / caseDims.W⌋
  , overhangW := palletDims.W - (⌊palletDims.W / caseDims.L⌋ : ℚ) * caseDims.L
  , overhangL := palletDims.L - (⌊palletDims.L / caseDims.W⌋ : ℚ) * caseDims.W }

/-- The per-orientation overhang validity test of `calculateColumnPattern`. -/
def optionValid (o : LayerOption) (maxOverhang : ℚ) : Prop :=
  o.overhangW ≤ maxOverhang ∧ o.overhangL ≤ maxOverhang

instance (o : LayerOption) (m : ℚ) : Decidable (optionValid o m) := by
  unfold optionValid
  infer_instance

/-- `calculateColumnPattern` (pallet stacker): choose the best valid
orientation; when neither is valid return the higher-count orientation
flagged `exceedsOverhang`. -/
def calculateColumnPattern (caseDims : Dims3) (palletDims : Pallet)
    (maxOverhang : ℚ) : LayerOption :=
  let option1 := columnOption1 caseDims palletDims
  let option2 := columnOption2 caseDims palletDims
  let option1Count := option1.wide * option1.long
  let option2Count := option2.wide * option2.long
  if optionValid option1 maxOverhang ∧ optionValid option2 maxOverhang then
    (if option1Count ≥ option2Count then option1 else option2)
  else if optionValid option1 maxOverhang then option1
  else if optionValid option2 maxOverhang then option2
  else
    (if option1Count ≥ option2Count then { option1 with exceedsOverhang := true }
     else { option2 with exceedsOverhang := true })

/-- `calculateBrickPattern`: unimplemented placeholder, column fallback. -/
def calculateBrickPattern (caseDims : Dims3) (palletDims : Pallet)
    (maxOverhang : ℚ) : LayerOption :=
  calculateColumnPattern caseDims palletDims maxOverhang

/-- `calculatePinwheelPattern`: unimplemented placeholder, column fallback. -/
def calculatePinwheelPattern (caseDims : Dims3) (palletDims : Pallet)
    (maxOverhang : ℚ) : LayerOption :=
  calculateColumnPattern caseDims palletDims maxOverhang

/-- `calculateSwap4048Pattern`: unimplemented placeholder, column fallback. -/
def calculateSwap4048Pattern (caseDims : Dims3) (palletDims : Pallet)
    (maxOverhang : ℚ) : LayerOption :=
  calculateColumnPattern caseDims palletDims maxOverhang

/-- Result record of `calculatePalletStacking`. -/
structure PalletStackResult where
  pattern : String
  casesWide : ℤ
  casesLong : ℤ
  casesPerLayer : ℤ
  maxLayers : ℤ
  totalCases : ℤ
  palletHeight : ℚ
  coverage : ℚ
  overhangW : ℚ
  overhangL : ℚ
  exceedsOverhang : Bool
deriving DecidableEq, Repr

/-- `calculatePalletStacking` (pallet stacker): dispatch on the pattern name
(`switch` with a `column` default), count layers within the height budget,
and report coverage and overhang. -/
def calculatePalletStacking (caseDims : Dims3) (palletConfig : Config)
    (targetHeight : ℚ) (pattern : String) : PalletStackResult :=
  let pallet := palletConfig.pallet
  let maxOverhang := palletConfig.solver.max_overhang_in
  let layerResult :=
    if pattern = "brick" then calculateBrickPattern caseDims pallet maxOverhang
    else if pattern = "pinwheel" then calculatePinwheelPattern caseDims pallet maxOverhang
    else if pattern = "swap-40-48" then calculateSwap4048Pattern caseDims pallet maxOverhang
    else calculateColumnPattern caseDims pallet maxOverhang
  let casesPerLayer := layerResult.wide * layerResult.long
  let availableHeight := targetHeight - pallet.H
  let maxLayers : ℤ := ⌊availableHeight / caseDims.H⌋
  let totalCases := casesPerLayer * maxLayers
  let actualPalletHeight := pallet.H + (maxLayers : ℚ) * caseDims.H
  let palletArea := pallet.L * pallet.W
  let usedArea := ((layerResult.wide : ℚ) * caseDims.W) * ((layerResult.long : ℚ) * caseDims.L)
  let coverage := usedArea / palletArea
  { pattern := pattern
  , casesWide := layerResult.wide
  , casesLong := layerResult.long
  , casesPerLayer := casesPerLayer
  , maxLayers := maxLayers
  , totalCases := totalCases
  , palletHeight := actualPalletHeight
  , coverage := coverage
  , overhangW := layerResult.overhangW
  , overhangL := layerResult.overhangL
  , exceedsOverhang := layerResult.exceedsOverhang }

/-- Result record of `checkPalletFit` (multi-SKU optimizer). -/
structure PalletFitResult where
  canInterlock : Bool
  layer1Count : ℤ
  layer2Count : ℤ
  avgCoverage : ℚ
  layer1Coverage : ℚ
  layer2Coverage : ℚ
deriving DecidableEq, Repr

/-- `checkPalletFit` (multi-SKU optimizer): layer plans for the unrotated and
90°-rotated orientations, their coverages, and interlocking feasibility. -/
def checkPalletFit (boxDims : Dims3) (palletDims : Pallet) : PalletFitResult :=
  let layer1Wide : ℤ := ⌊palletDims.W / boxDims.W⌋
  let layer1Long : ℤ := ⌊palletDims.L / boxDims.L⌋
  let layer1Count := layer1Wide * layer1Long
  let layer2Wide : ℤ := ⌊palletDims.W / boxDims.L⌋
  let layer2Long : ℤ := ⌊palletDims.L / boxDims.W⌋
  let layer2Count := layer2Wide * layer2Long
  let layer1Coverage :=
    ((layer1Wide : ℚ) * boxDims.W * (layer1Long : ℚ) * boxDims.L) / (palletDims.L * palletDims.W)
  let layer2Coverage :=
    ((layer2Wide : ℚ) * boxDims.L * (layer2Long : ℚ) * boxDims.W) / (palletDims.L * palletDims.W)
  let avgCoverage := (layer1Coverage + layer2Coverage) / 2
  { canInterlock := decide (0 < layer1Count) && decide (0 < layer2Count)
  , layer1Count := layer1Count
  , layer2Count := layer2Count
  , avgCoverage := avgCoverage
  , layer1Coverage := layer1Coverage
  , layer2Coverage := layer2Coverage }

/-- Per-SKU entry of `scoreBoxCandidate`'s `skuResults`. -/
structure SkuFitEntry where
  sku : String
  fits : Bool
  count : ℤ
  utilization : ℚ
  currentBaseline : ℚ
deriving DecidableEq, Repr

/-- Result record of `scoreBoxCandidate`.  In the source the `!allFit` early
return carries only `score: -1000`; here the remaining metrics keep the values
computed just before that return (`allFit` itself was `false` there). -/
structure ScoreResult where
  score : ℚ
  allFit : Bool
  avgUtilization : ℚ
  totalVolume : ℚ
  avgBaselineRatio : ℚ
  palletFit : PalletFitResult
  skuResults : List SkuFitEntry
deriving DecidableEq, Repr

/-- `scoreBoxCandidate` (multi-SKU optimizer): solve every SKU against the
candidate, average the metrics, and apply the weighted scoring policy. -/
def scoreBoxCandidate (boxDims : Dims3) (skus : List Sku) (config : Config)
    (palletFit : PalletFitResult) : ScoreResult :=
  let testConfig :=
    { config with masterpack := { config.masterpack with external := boxDims } }
  let skuResults := skus.map (fun sku =>
    let result := findBestArrangement sku testConfig
    { sku := sku.sku
    , fits := result.fits
    , count := if result.fits then result.count else 0
    , utilization := if result.fits then result.utilization else 0
    , currentBaseline := sku.current_baseline : SkuFitEntry })
  let allFit := skuResults.all (fun r => r.fits)
  let avgUtilization :=
    (skuResults.map (fun r => r.utilization)).sum / (skuResults.length : ℚ)
  let totalVolume := boxDims.L * boxDims.W * boxDims.H
  let baselineComparison := skuResults.map (fun r =>
    if r.currentBaseline > 0 then (r.count : ℚ) / r.currentBaseline else (1 : ℚ))
  let avgBaselineRatio := baselineComparison.sum / (baselineComparison.length : ℚ)
  if !allFit then
    { score := -1000, allFit := allFit, avgUtilization := avgUtilization
    , totalVolume := totalVolume, avgBaselineRatio := avgBaselineRatio
    , palletFit := palletFit, skuResults := skuResults }
  else
    let score :=
      avgUtilization * 500 - totalVolume * (1 / 10) + avgBaselineRatio * 300
        + (if palletFit.canInterlock then 200 + palletFit.avgCoverage * 300 else 0)
    { score := score, allFit := allFit, avgUtilization := avgUtilization
    , totalVolume := totalVolume, avgBaselineRatio := avgBaselineRatio
    , palletFit := palletFit, skuResults := skuResults }

/-- The swept values `minDim, minDim + step, …` of one axis of the candidate
sweep (`for (let v = minDim; v <= maxDim; v += step)`); empty for a
non-positive step, where the source loop would never terminate. -/
def sweepValues (minDim maxDim step : ℚ) : List ℚ :=
  if 0 < step then
    (List.range (⌊(maxDim - minDim) / step⌋ + 1).toNat).map (fun i => minDim + (i : ℚ) * step)
  else []

/-- `generateCandidateDimensions` (multi-SKU optimizer): the triple sweep,
pruned to aspect ratios of at most 2. -/
def generateCandidateDimensions (minDim maxDim step : ℚ) : List Dims3 :=
  (sweepValues minDim maxDim step).flatMap (fun L =>
    (sweepValues minDim maxDim step).flatMap (fun W =>
      (sweepValues minDim maxDim step).filterMap (fun H =>
        let maxRatio :=
          max (max (max (max (max (L / W) (W / L)) (L / H)) (H / L)) (W / H)) (H / W)
        if maxRatio ≤ 2 then some ⟨L, W, H⟩ else none)))

/-- A scored candidate `{ dims, ...score }` of `findOptimalMasterpack`. -/
structure ScoredCandidate where
  dims : Dims3
  score : ℚ
  allFit : Bool
  avgUtilization : ℚ
  totalVolume : ℚ
  avgBaselineRatio : ℚ
  palletFit : PalletFitResult
  skuResults : List SkuFitEntry
deriving DecidableEq, Repr

/-- Build a `ScoredCandidate` from `scoreBoxCandidate`'s result. -/
def ScoredCandidate.ofScore (dims : Dims3) (s : ScoreResult) : ScoredCandidate :=
  { dims := dims, score := s.score, allFit := s.allFit
  , avgUtilization := s.avgUtilization, totalVolume := s.totalVolume
  , avgBaselineRatio := s.avgBaselineRatio, palletFit := s.palletFit
  , skuResults := s.skuResults }

/-- Insert into a list already sorted descending by score, after any earlier
element of greater-or-equal score. -/
def insertByScoreDesc (x : ScoredCandidate) : List ScoredCandidate → List ScoredCandidate
  | [] => [x]
  | y :: ys => if x.score > y.score then x :: y :: ys else y :: insertByScoreDesc x ys

/-- Descending sort by score (`sort((a, b) => b.score - a.score)`). -/
def sortByScoreDesc : List ScoredCandidate → List ScoredCandidate
  | [] => []
  | x :: xs => insertByScoreDesc x (sortByScoreDesc xs)

/-- Result record of `findOptimalMasterpack`; `optimal` is
`scoredCandidates[0]`, which is absent when no candidate survives. -/
structure OptimizeResult where
  optimal : Option ScoredCandidate
  topCandidates : List ScoredCandidate
  totalTested : ℕ
  validCandidates : ℕ
deriving DecidableEq, Repr

/-- `findOptimalMasterpack` (multi-SKU optimizer): sweep candidates, score
each against every SKU and the pallet, keep only positive scores, sort
descending, and return the top five. -/
def findOptimalMasterpack (skus : List Sku) (config : Config)
    (minDim maxDim step : ℚ) : OptimizeResult :=
  let candidates := generateCandidateDimensions minDim maxDim step
  let scoredCandidates :=
    (candidates.map (fun dims =>
      let palletFit := checkPalletFit dims config.pallet
      let score := scoreBoxCandidate dims skus config palletFit
      ScoredCandidate.ofScore dims score)).filter (fun c => c.score > 0)
  let sorted := sortByScoreDesc scoredCandidates
  { optimal := sorted.head?
  , topCandidates := sorted.take 5
  , totalTested := candidates.length
  , validCandidates := scoredCandidates.length }

/-! ## Helper lemmas -/

theorem foldl_pick_mem (f : ScoredArrangement → ScoredArrangement → ScoredArrangement)
    (hf : ∀ a b, f a b = a ∨ f a b = b) :
    ∀ (xs : List ScoredArrangement) (x : ScoredArrangement), xs.foldl f x ∈ x :: xs := by
  intro xs
  induction xs with
  | nil => intro x; simp
  | cons y ys ih =>
    intro x
    have h := ih (f x y)
    rcases hf x y with h1 | h1 <;> rw [List.foldl_cons] <;>
      rcases List.mem_cons.mp h with h2 | h2 <;> simp [h1 ▸ h2] <;> simp_all

theorem pickBest_mem (x : ScoredArrangement) (xs : List ScoredArrangement) :
    pickBest x xs ∈ x :: xs := by
  unfold pickBest
  exact foldl_pick_mem _ (fun a b => by by_cases h : b.score > a.score <;> simp [h]) xs x

theorem mem_insertByScoreDesc {a x : ScoredCandidate} {l : List ScoredCandidate}
    (h : a ∈ insertByScoreDesc x l) : a = x ∨ a ∈ l := by
  induction l with
  | nil => simpa [insertByScoreDesc] using h
  | cons y ys ih =>
    unfold insertByScoreDesc at h
    by_cases hc : x.score > y.score
    · simp only [if_pos hc, List.mem_cons] at h
      rcases h with h | h | h
      · exact Or.inl h
      · exact Or.inr (List.mem_cons.mpr (Or.inl h))
      · exact Or.inr (List.mem_cons.mpr (Or.inr h))
    · simp only [if_neg hc, List.mem_cons] at h
      rcases h with h | h
      · exact Or.inr (List.mem_cons.mpr (Or.inl h))
      · rcases ih h with h | h
        · exact Or.inl h
        · exact Or.inr (List.mem_cons.mpr (Or.inr h))

theorem mem_sortByScoreDesc {a : ScoredCandidate} {l : List ScoredCandidate}
    (h : a ∈ sortByScoreDesc l) : a ∈ l := by
  induction l with
  | nil => simp [sortByScoreDesc] at h
  | cons y ys ih =>
    unfold sortByScoreDesc at h
    rcases mem_insertByScoreDesc h with h | h
    · exact h ▸ List.mem_cons_self y ys
    · exact List.mem_cons.mpr (Or.inr (ih h))

theorem int_mul3_pos_parts {a b c : ℤ} (ha : 0 ≤ a) (hb : 0 ≤ b) (hc : 0 ≤ c)
    (h : 0 < a * b * c) : 0 < a ∧ 0 < b ∧ 0 < c := by
  have ha' : a ≠ 0 := by rintro rfl; simp at h
  have hb' : b ≠ 0 := by rintro rfl; simp at h
  have hc' : c ≠ 0 := by rintro rfl; simp at h
  exact ⟨ha.lt_of_ne (Ne.symm ha'), hb.lt_of_ne (Ne.symm hb'), hc.lt_of_ne (Ne.symm hc')⟩

theorem rotDims_pos {u : Dims3} (r : Rot) (hL : 0 < u.L) (hW : 0 < u.W) (hH : 0 < u.H) :
    0 < (rotDims u r).L ∧ 0 < (rotDims u r).W ∧ 0 < (rotDims u r).H := by
  cases r <;> exact ⟨by simpa [rotDims], by simpa [rotDims], by simpa [rotDims]⟩

/-- Any fitting rotation with positive unit and internal extents and squish
fractions below 1 has utilization in `(0, 1]`. -/
theorem tryRotation_utilization_bounds (u i : Dims3) (r : Rot) (s : SquishPct)
    (huL : 0 < u.L) (huW : 0 < u.W) (huH : 0 < u.H)
    (hsx : s.x < 1) (hsy : s.y < 1) (hsz : s.z < 1)
    (hiL : 0 < i.L) (hiW : 0 < i.W) (hiH : 0 < i.H)
    (hc : 0 < (tryRotation u i r s).count) :
    0 < (tryRotation u i r s).utilization ∧ (tryRotation u i r s).utilization ≤ 1 := by
  obtain ⟨hrL, hrW, hrH⟩ := rotDims_pos r huL huW huH
  set rot := rotDims u r with hrot
  have haL : 0 < rot.L * (1 - s.x) := mul_pos hrL (by linarith)
  have haW : 0 < rot.W * (1 - s.y) := mul_pos hrW (by linarith)
  have haH : 0 < rot.H * (1 - s.z) := mul_pos hrH (by linarith)
  set aL := rot.L * (1 - s.x)
  set aW := rot.W * (1 - s.y)
  set aH := rot.H * (1 - s.z)
  have hnx : (0 : ℤ) ≤ ⌊i.L / aL⌋ := Int.floor_nonneg.mpr (div_nonneg hiL.le haL.le)
  have hny : (0 : ℤ) ≤ ⌊i.W / aW⌋ := Int.floor_nonneg.mpr (div_nonneg hiW.le haW.le)
  have hnz : (0 : ℤ) ≤ ⌊i.H / aH⌋ := Int.floor_nonneg.mpr (div_nonneg hiH.le haH.le)
  have hc' : 0 < ⌊i.L / aL⌋ * ⌊i.W / aW⌋ * ⌊i.H / aH⌋ := by
    simpa [tryRotation, ← hrot] using hc
  obtain ⟨hpx, hpy, hpz⟩ := int_mul3_pos_parts hnx hny hnz hc'
  have hxle : (⌊i.L / aL⌋ : ℚ) * aL ≤ i.L := by
    have := Int.floor_le (i.L / aL)
    calc (⌊i.L / aL⌋ : ℚ) * aL ≤ (i.L / aL) * aL := by
          exact mul_le_mul_of_nonneg_right this haL.le
      _ = i.L := div_mul_cancel₀ _ haL.ne'
  have hyle : (⌊i.W / aW⌋ : ℚ) * aW ≤ i.W := by
    have := Int.floor_le (i.W / aW)
    calc (⌊i.W / aW⌋ : ℚ) * aW ≤ (i.W / aW) * aW := by
          exact mul_le_mul_of_nonneg_right this haW.le
      _ = i.W := div_mul_cancel₀ _ haW.ne'
  have hzle : (⌊i.H / aH⌋ : ℚ) * aH ≤ i.H := by
    have := Int.floor_le (i.H / aH)
    calc (⌊i.H / aH⌋ : ℚ) * aH ≤ (i.H / aH) * aH := by
          exact mul_le_mul_of_nonneg_right this haH.le
      _ = i.H := div_mul_cancel₀ _ haH.ne'
  have hxpos : (0 : ℚ) < (⌊i.L / aL⌋ : ℚ) * aL :=
    mul_pos (by exact_mod_cast hpx) haL
  have hypos : (0 : ℚ) < (⌊i.W / aW⌋ : ℚ) * aW :=
    mul_pos (by exact_mod_cast hpy) haW
  have hzpos : (0 : ℚ) < (⌊i.H / aH⌋ : ℚ) * aH :=
    mul_pos (by exact_mod_cast hpz) haH
  have hvol : (0 : ℚ) < i.L * i.W * i.H := mul_pos (mul_pos hiL hiW) hiH
  have hnum :
      ((⌊i.L / aL⌋ * ⌊i.W / aW⌋ * ⌊i.H / aH⌋ : ℤ) : ℚ) * (aL * aW * aH)
        = ((⌊i.L / aL⌋ : ℚ) * aL) * ((⌊i.W / aW⌋ : ℚ) * aW) * ((⌊i.H / aH⌋ : ℚ) * aH) := by
    push_cast
    ring
  have hutil : (tryRotation u i r s).utilization
      = ((⌊i.L / aL⌋ * ⌊i.W / aW⌋ * ⌊i.H / aH⌋ : ℤ) : ℚ) * (aL * aW * aH)
          / (i.L * i.W * i.H) := by
    simp [tryRotation, ← hrot]
  constructor
  · rw [hutil]
    apply div_pos _ hvol
    rw [hnum]
    exact mul_pos (mul_pos hxpos hypos) hzpos
  · rw [hutil, div_le_one hvol, hnum]
    calc ((⌊i.L / aL⌋ : ℚ) * aL) * ((⌊i.W / aW⌋ : ℚ) * aW) * ((⌊i.H / aH⌋ : ℚ) * aH)
        ≤ (i.L * i.W) * ((⌊i.H / aH⌋ : ℚ) * aH) := by
          apply mul_le_mul_of_nonneg_right _ hzpos.le
          exact mul_le_mul hxle hyle hypos.le hiL.le
      _ ≤ (i.L * i.W) * i.H := by
          apply mul_le_mul_of_nonneg_left hzle (mul_pos hiL hiW).le
      _ = i.L * i.W * i.H := rfl

/-- Every `fit` result of `findBestArrangement` is one of the six
`tryRotation` outcomes, and that outcome had a positive count. -/
theorem findBestArrangement_fit_exists (sku : Sku) (config : Config) (a : ArrangementFit)
    (h : findBestArrangement sku config = .fit a) :
    ∃ r ∈ rotList,
      0 < (tryRotation ⟨sku.L, sku.W, sku.H⟩
            (calculateInternalDims config.masterpack.external config.masterpack.wall_thickness_in)
            r config.solver.squish_pct).count ∧
        a.count = (tryRotation ⟨sku.L, sku.W, sku.H⟩
            (calculateInternalDims config.masterpack.external config.masterpack.wall_thickness_in)
            r config.solver.squish_pct).count ∧
        a.utilization = (tryRotation ⟨sku.L, sku.W, sku.H⟩
            (calculateInternalDims config.masterpack.external config.masterpack.wall_thickness_in)
            r config.solver.squish_pct).utilization := by
  simp only [findBestArrangement] at h
  split at h
  · exact absurd h (by simp)
  · rename_i v vs heq
    rw [FitResult.fit.injEq] at h
    subst h
    have hbest := pickBest_mem
      (ScoredArrangement.mk v (scoreArrangement v config.solver.prefer_multiples_of))
      (vs.map (fun a => ScoredArrangement.mk a (scoreArrangement a config.solver.prefer_multiples_of)))
    have hstep : ∃ b ∈ v :: vs,
        (pickBest (ScoredArrangement.mk v (scoreArrangement v config.solver.prefer_multiples_of))
          (vs.map (fun a =>
            ScoredArrangement.mk a (scoreArrangement a config.solver.prefer_multiples_of)))).arr = b := by
      rcases List.mem_cons.mp hbest with hb | hb
      · exact ⟨v, List.mem_cons_self v vs, by rw [hb]⟩
      · obtain ⟨b, hbvs, hbeq⟩ := List.mem_map.mp hb
        exact ⟨b, List.mem_cons.mpr (Or.inr hbvs), by rw [← hbeq]⟩
    obtain ⟨b, hbmem, harr⟩ := hstep
    rw [← heq] at hbmem
    obtain ⟨hbarr, hbpos⟩ := List.mem_filter.mp hbmem
    obtain ⟨r, hr, hreq⟩ := List.mem_map.mp hbarr
    refine ⟨r, hr, ?_, ?_, ?_⟩
    · rw [hreq]; exact of_decide_eq_true hbpos
    · simp only [ArrangementFit.count, harr, hreq]
    · simp only [ArrangementFit.utilization, harr, hreq]

theorem floor_mul_le {x d : ℚ} (hd : 0 < d) : (⌊x / d⌋ : ℚ) * d ≤ x := by
  calc (⌊x / d⌋ : ℚ) * d ≤ (x / d) * d :=
        mul_le_mul_of_nonneg_right (Int.floor_le (x / d)) hd.le
    _ = x := div_mul_cancel₀ _ hd.ne'

/-- The chosen layer's `wide`/`long` pair always comes from one of the two
orientations. -/
theorem calculateColumnPattern_cases (c : Dims3) (p : Pallet) (m : ℚ) :
    ((calculateColumnPattern c p m).wide = (columnOption1 c p).wide ∧
        (calculateColumnPattern c p m).long = (columnOption1 c p).long) ∨
      ((calculateColumnPattern c p m).wide = (columnOption2 c p).wide ∧
        (calculateColumnPattern c p m).long = (columnOption2 c p).long) := by
  simp only [calculateColumnPattern]
  split_ifs <;> simp

/-- Every pattern name dispatches to the column layout; only the reported
pattern string differs. -/
theorem calculatePalletStacking_eq_column (c : Dims3) (cfg : Config) (t : ℚ)
    (pat : String) :
    calculatePalletStacking c cfg t pat
      = { calculatePalletStacking c cfg t "column" with pattern := pat } := by
  simp only [calculatePalletStacking, calculateBrickPattern, calculatePinwheelPattern,
    calculateSwap4048Pattern]
  split_ifs <;> rfl

/-- A wall-less demonstration configuration over a standard 48×40 pallet,
used for concrete instances. -/
def demoConfig (external : Dims3) : Config :=
  { masterpack := { external := external, wall_thickness_in := 0, tare_lb := 0 }
  , solver := { squish_pct := ⟨0, 0, 0⟩, prefer_multiples_of := 12, max_overhang_in := 0 }
  , pallet := ⟨48, 40, 6⟩ }

theorem calculatePalletStacking_casesWide (c : Dims3) (cfg : Config) (t : ℚ)
    (pat : String) :
    (calculatePalletStacking c cfg t pat).casesWide
      = (calculateColumnPattern c cfg.pallet cfg.solver.max_overhang_in).wide := by
  simp only [calculatePalletStacking, calculateBrickPattern, calculatePinwheelPattern,
    calculateSwap4048Pattern]
  split_ifs <;> rfl

theorem calculatePalletStacking_casesLong (c : Dims3) (cfg : Config) (t : ℚ)
    (pat : String) :
    (calculatePalletStacking c cfg t pat).casesLong
      = (calculateColumnPattern c cfg.pallet cfg.solver.max_overhang_in).long := by
  simp only [calculatePalletStacking, calculateBrickPattern, calculatePinwheelPattern,
    calculateSwap4048Pattern]
  split_ifs <;> rfl

theorem calculatePalletStacking_coverage (c : Dims3) (cfg : Config) (t : ℚ)
    (pat : String) :
    (calculatePalletStacking c cfg t pat).coverage
      = (((calculateColumnPattern c cfg.pallet cfg.solver.max_overhang_in).wide : ℚ) * c.W)
          * (((calculateColumnPattern c cfg.pallet cfg.solver.max_overhang_in).long : ℚ) * c.L)
          / (cfg.pallet.L * cfg.pallet.W) := by
  simp only [calculatePalletStacking, calculateBrickPattern, calculatePinwheelPattern,
    calculateSwap4048Pattern]
  split_ifs <;> rfl

theorem layer_coverage_unit_interval {w l cW cL pL pW : ℚ}
    (hw : 1 ≤ w) (hl : 1 ≤ l) (hcw : 0 < cW) (hcl : 0 < cL)
    (hpl : 0 < pL) (hpw : 0 < pW) (h1 : w * cW ≤ pW) (h2 : l * cL ≤ pL) :
    0 < (w * cW) * (l * cL) / (pL * pW) ∧ (w * cW) * (l * cL) / (pL * pW) ≤ 1 := by
  have ha : 0 < w * cW := mul_pos (lt_of_lt_of_le one_pos hw) hcw
  have hb : 0 < l * cL := mul_pos (lt_of_lt_of_le one_pos hl) hcl
  constructor
  · exact div_pos (mul_pos ha hb) (mul_pos hpl hpw)
  · rw [div_le_one (mul_pos hpl hpw)]
    calc (w * cW) * (l * cL) ≤ pW * (l * cL) := mul_le_mul_of_nonneg_right h1 hb.le
      _ ≤ pW * pL := mul_le_mul_of_nonneg_left h2 (by linarith)
      _ = pL * pW := mul_comm _ _

/-! ## Claim theorems -/

/-- C9: for every case dimensions, pallet configuration, and target height,
`calculatePalletStacking` with pattern `'brick'`, `'pinwheel'`, or
`'swap-40-48'` equals the `'column'` result in every field except the pattern
identifier: the alternative patterns fall back to the column layout. -/
theorem C9_alternative_patterns_fall_back_to_column (caseDims : Dims3)
    (palletConfig : Config) (targetHeight : ℚ) :
    calculatePalletStacking caseDims palletConfig targetHeight "brick"
        = { calculatePalletStacking caseDims palletConfig targetHeight "column" with
            pattern := "brick" }
      ∧ calculatePalletStacking caseDims palletConfig targetHeight "pinwheel"
        = { calculatePalletStacking caseDims palletConfig targetHeight "column" with
            pattern := "pinwheel" }
      ∧ calculatePalletStacking caseDims palletConfig targetHeight "swap-40-48"
        = { calculatePalletStacking caseDims palletConfig targetHeight "column" with
            pattern := "swap-40-48" } :=
  ⟨calculatePalletStacking_eq_column caseDims palletConfig targetHeight "brick",
   calculatePalletStacking_eq_column caseDims palletConfig targetHeight "pinwheel",
   calculatePalletStacking_eq_column caseDims palletConfig targetHeight "swap-40-48"⟩

/-- C4: for box 20×15×14 on a 48×40 pallet footprint, `checkPalletFit` places
4 containers in the unrotated layer and 6 in the rotated layer, reports
interlocking feasible, and returns the mean of the two layers' used-area
ratios as `avgCoverage`; in general `canInterlock` holds iff both layers
place at least one container. -/
theorem C4_checkPalletFit_scenario_and_interlock_iff :
    ((checkPalletFit ⟨20, 15, 14⟩ ⟨48, 40, 6⟩).layer1Count = 4
      ∧ (checkPalletFit ⟨20, 15, 14⟩ ⟨48, 40, 6⟩).layer2Count = 6
      ∧ (checkPalletFit ⟨20, 15, 14⟩ ⟨48, 40, 6⟩).canInterlock = true
      ∧ (checkPalletFit ⟨20, 15, 14⟩ ⟨48, 40, 6⟩).layer1Coverage = 5 / 8
      ∧ (checkPalletFit ⟨20, 15, 14⟩ ⟨48, 40, 6⟩).layer2Coverage = 15 / 16
      ∧ (checkPalletFit ⟨20, 15, 14⟩ ⟨48, 40, 6⟩).avgCoverage
          = ((checkPalletFit ⟨20, 15, 14⟩ ⟨48, 40, 6⟩).layer1Coverage
              + (checkPalletFit ⟨20, 15, 14⟩ ⟨48, 40, 6⟩).layer2Coverage) / 2)
    ∧ ∀ (boxDims : Dims3) (palletDims : Pallet),
        ((checkPalletFit boxDims palletDims).canInterlock = true
          ↔ 0 < (checkPalletFit boxDims palletDims).layer1Count
            ∧ 0 < (checkPalletFit boxDims palletDims).layer2Count) := by
  constructor
  · refine ⟨?_, ?_, ?_, ?_, ?_, ?_⟩ <;> with_unfolding_all rfl
  · intro boxDims palletDims
    simp [checkPalletFit]

/-- C6 counterexample: the solver does not reject inputs with non-positive
dimensions before solving.  For a unit with negative extents (−5 × −2 × 2) it
returns a fully computed `fits = true` arrangement instead of any rejection. -/
theorem C6_counterexample_negative_input_not_rejected :
    (findBestArrangement ⟨"neg", -5, -2, 2, 16, 0⟩ (demoConfig ⟨18, 18, 18⟩)).fits = true := by
  with_unfolding_all rfl

/-- C6 amended: the code performs no input validation.  Zero or negative
dimensions flow through the same floor-based computation; a unit with negative
extents can produce a computed `fits = true` result whose count is positive
and whose utilization even exceeds 1. -/
theorem C6_amended_no_validation_before_solving :
    (findBestArrangement ⟨"neg", -5, -2, 2, 16, 0⟩ (demoConfig ⟨18, 18, 18⟩)).fits = true
      ∧ (findBestArrangement ⟨"neg", -5, -2, 2, 16, 0⟩ (demoConfig ⟨18, 18, 18⟩)).count = 324
      ∧ (findBestArrangement ⟨"neg", -5, -2, 2, 16, 0⟩ (demoConfig ⟨18, 18, 18⟩)).utilization
          = 10 / 9
      ∧ 1 < (findBestArrangement ⟨"neg", -5, -2, 2, 16, 0⟩ (demoConfig ⟨18, 18, 18⟩)).utilization := by
  refine ⟨?_, ?_, ?_, of_decide_eq_true ?_⟩ <;> with_unfolding_all rfl

/-- C3: for positive unit and container dimensions (squish fractions below 1),
a `fits = true` result of `findBestArrangement` has utilization in `(0, 1]`;
and for positive case and pallet footprint extents, a layer layout of
`calculatePalletStacking` whose per-axis counts are at least 1 has coverage in
`(0, 1]`. -/
theorem C3_utilization_and_coverage_in_unit_interval :
    (∀ (sku : Sku) (config : Config),
        0 < sku.L → 0 < sku.W → 0 < sku.H →
        config.solver.squish_pct.x < 1 → config.solver.squish_pct.y < 1 →
        config.solver.squish_pct.z < 1 →
        0 < (calculateInternalDims config.masterpack.external
              config.masterpack.wall_thickness_in).L →
        0 < (calculateInternalDims config.masterpack.external
              config.masterpack.wall_thickness_in).W →
        0 < (calculateInternalDims config.masterpack.external
              config.masterpack.wall_thickness_in).H →
        (findBestArrangement sku config).fits = true →
        0 < (findBestArrangement sku config).utilization ∧
          (findBestArrangement sku config).utilization ≤ 1)
      ∧ (∀ (caseDims : Dims3) (palletConfig : Config) (targetHeight : ℚ) (pattern : String),
          0 < caseDims.L → 0 < caseDims.W →
          0 < palletConfig.pallet.L → 0 < palletConfig.pallet.W →
          1 ≤ (calculatePalletStacking caseDims palletConfig targetHeight pattern).casesWide →
          1 ≤ (calculatePalletStacking caseDims palletConfig targetHeight pattern).casesLong →
          0 < (calculatePalletStacking caseDims palletConfig targetHeight pattern).coverage ∧
            (calculatePalletStacking caseDims palletConfig targetHeight pattern).coverage ≤ 1) := by
  constructor
  · intro sku config hL hW hH hsx hsy hsz hiL hiW hiH hfit
    cases hres : findBestArrangement sku config with
    | noFit reason ax => rw [hres] at hfit; simp [FitResult.fits] at hfit
    | fit a =>
      obtain ⟨r, _, hpos, _, hutil⟩ := findBestArrangement_fit_exists sku config a hres
      simp only [FitResult.utilization]
      rw [hutil]
      exact tryRotation_utilization_bounds _ _ r _ hL hW hH hsx hsy hsz hiL hiW hiH hpos
  · intro caseDims palletConfig targetHeight pattern hcL hcW hpL hpW hw hl
    rw [calculatePalletStacking_casesWide] at hw
    rw [calculatePalletStacking_casesLong] at hl
    rw [calculatePalletStacking_coverage]
    rcases calculateColumnPattern_cases caseDims palletConfig.pallet
        palletConfig.solver.max_overhang_in with ⟨hwz, hlz⟩ | ⟨hwz, hlz⟩
    · rw [hwz] at hw
      rw [hlz] at hl
      rw [hwz, hlz]
      simp only [columnOption1] at hw hl ⊢
      have hw' : (1 : ℚ) ≤ ((⌊palletConfig.pallet.W / caseDims.W⌋ : ℤ) : ℚ) := by
        exact_mod_cast hw
      have hl' : (1 : ℚ) ≤ ((⌊palletConfig.pallet.L / caseDims.L⌋ : ℤ) : ℚ) := by
        exact_mod_cast hl
      exact layer_coverage_unit_interval hw' hl' hcW hcL hpL hpW
        (floor_mul_le hcW) (floor_mul_le hcL)
    · rw [hwz] at hw
      rw [hlz] at hl
      rw [hwz, hlz]
      simp only [columnOption2] at hw hl ⊢
      have hw' : (1 : ℚ) ≤ ((⌊palletConfig.pallet.W / caseDims.L⌋ : ℤ) : ℚ) := by
        exact_mod_cast hw
      have hl' : (1 : ℚ) ≤ ((⌊palletConfig.pallet.L / caseDims.W⌋ : ℤ) : ℚ) := by
        exact_mod_cast hl
      have hswap :
          ((⌊palletConfig.pallet.W / caseDims.L⌋ : ℤ) : ℚ) * caseDims.W
              * (((⌊palletConfig.pallet.L / caseDims.W⌋ : ℤ) : ℚ) * caseDims.L)
            = ((⌊palletConfig.pallet.W / caseDims.L⌋ : ℤ) : ℚ) * caseDims.L
              * (((⌊palletConfig.pallet.L / caseDims.W⌋ : ℤ) : ℚ) * caseDims.W) := by
        ring
      rw [hswap]
      exact layer_coverage_unit_interval hw' hl' hcL hcW hpL hpW
        (floor_mul_le hcL) (floor_mul_le hcW)

/-- Witness for C3 at the spec's own scenarios: unit 6×4×3 in a wall-less
24×16×12 container, and case 20×15×14 stacked on a 48×40 pallet. -/
theorem C3_witness :
    (0 < (findBestArrangement ⟨"kit", 6, 4, 3, 16, 0⟩ (demoConfig ⟨24, 16, 12⟩)).utilization
      ∧ (findBestArrangement ⟨"kit", 6, 4, 3, 16, 0⟩ (demoConfig ⟨24, 16, 12⟩)).utilization ≤ 1)
    ∧ (0 < (calculatePalletStacking ⟨20, 15, 14⟩ (demoConfig ⟨24, 16, 12⟩) 64 "column").coverage
      ∧ (calculatePalletStacking ⟨20, 15, 14⟩ (demoConfig ⟨24, 16, 12⟩) 64 "column").coverage ≤ 1) := by
  constructor
  · exact C3_utilization_and_coverage_in_unit_interval.1
      ⟨"kit", 6, 4, 3, 16, 0⟩ (demoConfig ⟨24, 16, 12⟩)
      (by norm_num) (by norm_num) (by norm_num)
      (by norm_num [demoConfig]) (by norm_num [demoConfig]) (by norm_num [demoConfig])
      (by norm_num [demoConfig, calculateInternalDims])
      (by norm_num [demoConfig, calculateInternalDims])
      (by norm_num [demoConfig, calculateInternalDims])
      (by with_unfolding_all rfl)
  · exact C3_utilization_and_coverage_in_unit_interval.2
      ⟨20, 15, 14⟩ (demoConfig ⟨24, 16, 12⟩) 64 "column"
      (by norm_num) (by norm_num)
      (by norm_num [demoConfig]) (by norm_num [demoConfig])
      (of_decide_eq_true (by with_unfolding_all rfl))
      (of_decide_eq_true (by with_unfolding_all rfl))

theorem tryRotation_count_eq (u i : Dims3) (r : Rot) (s : SquishPct) :
    (tryRotation u i r s).count
      = (tryRotation u i r s).nx * (tryRotation u i r s).ny * (tryRotation u i r s).nz := by
  simp [tryRotation]

theorem tryRotation_counts_nonneg (u i : Dims3) (r : Rot) (s : SquishPct)
    (huL : 0 < u.L) (huW : 0 < u.W) (huH : 0 < u.H)
    (hsx : s.x < 1) (hsy : s.y < 1) (hsz : s.z < 1)
    (hiL : 0 < i.L) (hiW : 0 < i.W) (hiH : 0 < i.H) :
    0 ≤ (tryRotation u i r s).nx ∧ 0 ≤ (tryRotation u i r s).ny
      ∧ 0 ≤ (tryRotation u i r s).nz := by
  obtain ⟨hrL, hrW, hrH⟩ := rotDims_pos r huL huW huH
  refine ⟨?_, ?_, ?_⟩
  · simp only [tryRotation]
    exact Int.floor_nonneg.mpr (div_nonneg hiL.le (mul_pos hrL (by linarith)).le)
  · simp only [tryRotation]
    exact Int.floor_nonneg.mpr (div_nonneg hiW.le (mul_pos hrW (by linarith)).le)
  · simp only [tryRotation]
    exact Int.floor_nonneg.mpr (div_nonneg hiH.le (mul_pos hrH (by linarith)).le)

/-- C5: with positive unit and internal dimensions, when no rotation of the
six yields a positive count on all axes, `findBestArrangement` returns the
no-fit result whose failing-axis list compares the unit's smallest extent
against each internal axis extent; for unit 20×20×20 and internal 18×18×18
the list is `[L, W, H]`. -/
theorem C5_noFit_lists_failing_axes :
    (∀ (sku : Sku) (config : Config),
        0 < sku.L → 0 < sku.W → 0 < sku.H →
        config.solver.squish_pct.x < 1 → config.solver.squish_pct.y < 1 →
        config.solver.squish_pct.z < 1 →
        0 < (calculateInternalDims config.masterpack.external
              config.masterpack.wall_thickness_in).L →
        0 < (calculateInternalDims config.masterpack.external
              config.masterpack.wall_thickness_in).W →
        0 < (calculateInternalDims config.masterpack.external
              config.masterpack.wall_thickness_in).H →
        (∀ r ∈ rotList,
          ¬(0 < (tryRotation ⟨sku.L, sku.W, sku.H⟩
                  (calculateInternalDims config.masterpack.external
                    config.masterpack.wall_thickness_in) r config.solver.squish_pct).nx
            ∧ 0 < (tryRotation ⟨sku.L, sku.W, sku.H⟩
                  (calculateInternalDims config.masterpack.external
                    config.masterpack.wall_thickness_in) r config.solver.squish_pct).ny
            ∧ 0 < (tryRotation ⟨sku.L, sku.W, sku.H⟩
                  (calculateInternalDims config.masterpack.external
                    config.masterpack.wall_thickness_in) r config.solver.squish_pct).nz)) →
        findBestArrangement sku config
          = .noFit "SKU dimensions too large for masterpack"
              (let internal := calculateInternalDims config.masterpack.external
                config.masterpack.wall_thickness_in
               let minUnitDim := min sku.L (min sku.W sku.H)
               let failing : List AxisTag :=
                 (if minUnitDim > internal.L then [AxisTag.L] else [])
                   ++ (if minUnitDim > internal.W then [AxisTag.W] else [])
                   ++ (if minUnitDim > internal.H then [AxisTag.H] else [])
               if failing.isEmpty then [AxisTag.all] else failing))
      ∧ findBestArrangement ⟨"cube20", 20, 20, 20, 16, 0⟩ (demoConfig ⟨18, 18, 18⟩)
          = .noFit "SKU dimensions too large for masterpack" [.L, .W, .H] := by
  constructor
  · intro sku config hL hW hH hsx hsy hsz hiL hiW hiH hno
    simp only [findBestArrangement]
    split
    · simp [findFailingAxis]
    · rename_i v vs heq
      exfalso
      have hv := heq ▸ List.mem_cons_self v vs
      obtain ⟨hvarr, hvpos⟩ := List.mem_filter.mp hv
      obtain ⟨r, hr, hreq⟩ := List.mem_map.mp hvarr
      have hcpos : 0 < (tryRotation ⟨sku.L, sku.W, sku.H⟩
          (calculateInternalDims config.masterpack.external
            config.masterpack.wall_thickness_in) r config.solver.squish_pct).count := by
        rw [hreq]
        exact of_decide_eq_true hvpos
      rw [tryRotation_count_eq] at hcpos
      obtain ⟨h1, h2, h3⟩ := tryRotation_counts_nonneg ⟨sku.L, sku.W, sku.H⟩ _ r _
        hL hW hH hsx hsy hsz hiL hiW hiH
      exact hno r hr (int_mul3_pos_parts h1 h2 h3 hcpos)
  · with_unfolding_all rfl

/-- Witness for C5: unit 20×20×20 against internal 18×18×18, all hypotheses
discharged concretely. -/
theorem C5_witness :
    findBestArrangement ⟨"cube20", 20, 20, 20, 16, 0⟩ (demoConfig ⟨18, 18, 18⟩)
      = .noFit "SKU dimensions too large for masterpack" [.L, .W, .H] := by
  refine (C5_noFit_lists_failing_axes.1 ⟨"cube20", 20, 20, 20, 16, 0⟩ (demoConfig ⟨18, 18, 18⟩)
    (by norm_num) (by norm_num) (by norm_num)
    (by norm_num [demoConfig]) (by norm_num [demoConfig]) (by norm_num [demoConfig])
    (by norm_num [demoConfig, calculateInternalDims])
    (by norm_num [demoConfig, calculateInternalDims])
    (by norm_num [demoConfig, calculateInternalDims])
    (of_decide_eq_true (by with_unfolding_all rfl))).trans ?_
  with_unfolding_all rfl

theorem list_all_map {α β : Type} (l : List α) (f : α → β) (p : β → Bool) :
    (l.map f).all p = l.all (fun a => p (f a)) := by
  induction l with
  | nil => rfl
  | cons x xs ih => simp [List.all_cons, ih]

/-- `scoreBoxCandidate` either rejects (sentinel score −1000) or keeps
`allFit = true` with the weighted scoring formula. -/
theorem scoreBoxCandidate_score_cases (b : Dims3) (skus : List Sku) (config : Config)
    (pf : PalletFitResult) :
    ((scoreBoxCandidate b skus config pf).allFit = false
        ∧ (scoreBoxCandidate b skus config pf).score = -1000)
      ∨ ((scoreBoxCandidate b skus config pf).allFit = true
        ∧ (scoreBoxCandidate b skus config pf).score
            = (scoreBoxCandidate b skus config pf).avgUtilization * 500
              - (scoreBoxCandidate b skus config pf).totalVolume * (1 / 10)
              + (scoreBoxCandidate b skus config pf).avgBaselineRatio * 300
              + (if pf.canInterlock then 200 + pf.avgCoverage * 300 else 0)) := by
  simp only [scoreBoxCandidate]
  rw [apply_ite ScoreResult.allFit, apply_ite ScoreResult.score,
    apply_ite ScoreResult.avgUtilization, apply_ite ScoreResult.totalVolume,
    apply_ite ScoreResult.avgBaselineRatio]
  split_ifs <;>
    first
      | exact Or.inl ⟨by simp_all, rfl⟩
      | exact Or.inr ⟨by simp_all, rfl⟩

theorem scoreBoxCandidate_unfit_score (b : Dims3) (skus : List Sku) (config : Config)
    (pf : PalletFitResult) (h : (scoreBoxCandidate b skus config pf).allFit = false) :
    (scoreBoxCandidate b skus config pf).score = -1000 := by
  rcases scoreBoxCandidate_score_cases b skus config pf with ⟨_, hs⟩ | ⟨ha, _⟩
  · exact hs
  · rw [ha] at h
    exact absurd h (by simp)

theorem scoreBoxCandidate_pos_allFit (b : Dims3) (skus : List Sku) (config : Config)
    (pf : PalletFitResult) (h : 0 < (scoreBoxCandidate b skus config pf).score) :
    (scoreBoxCandidate b skus config pf).allFit = true := by
  rcases scoreBoxCandidate_score_cases b skus config pf with ⟨_, hs⟩ | ⟨ha, _⟩
  · rw [hs] at h
    norm_num at h
  · exact ha

theorem scoreBoxCandidate_allFit_eq (b : Dims3) (skus : List Sku) (config : Config)
    (pf : PalletFitResult) :
    (scoreBoxCandidate b skus config pf).allFit
      = skus.all (fun sku => (findBestArrangement sku
          { masterpack :=
              { external := b
              , wall_thickness_in := config.masterpack.wall_thickness_in
              , tare_lb := config.masterpack.tare_lb }
          , solver := config.solver
          , pallet := config.pallet }).fits) := by
  simp [scoreBoxCandidate, apply_ite ScoreResult.allFit, list_all_map]

theorem scoreBoxCandidate_totalVolume (b : Dims3) (skus : List Sku) (config : Config)
    (pf : PalletFitResult) :
    (scoreBoxCandidate b skus config pf).totalVolume = b.L * b.W * b.H := by
  simp [scoreBoxCandidate, apply_ite ScoreResult.totalVolume]

/-- C2: for every candidate where all products fit, the rank score equals
500·avgUtilization − 0.1·(L·W·H) + 300·avgBaselineRatio, plus the additive
bonuses 200 and 300·avgCoverage exactly when interlocking is feasible;
`avgBaselineRatio` uses ratio 1.0 for a product with no recorded baseline;
and the `allFit` verdict is independent of the pallet-fit input, so poor
interlocking never disqualifies a candidate. -/
theorem C2_score_formula_of_allFit :
    ∀ (boxDims : Dims3) (skus : List Sku) (config : Config) (palletFit : PalletFitResult),
      (scoreBoxCandidate boxDims skus config palletFit).allFit = true →
      ((scoreBoxCandidate boxDims skus config palletFit).score
          = 500 * (scoreBoxCandidate boxDims skus config palletFit).avgUtilization
            - (boxDims.L * boxDims.W * boxDims.H) * (1 / 10)
            + 300 * (scoreBoxCandidate boxDims skus config palletFit).avgBaselineRatio
            + (if palletFit.canInterlock then 200 + 300 * palletFit.avgCoverage else 0))
        ∧ (scoreBoxCandidate boxDims skus config palletFit).avgBaselineRatio
            = (skus.map (fun sku =>
                if sku.current_baseline > 0
                then (((if (findBestArrangement sku
                        { masterpack :=
                            { external := boxDims
                            , wall_thickness_in := config.masterpack.wall_thickness_in
                            , tare_lb := config.masterpack.tare_lb }
                        , solver := config.solver
                        , pallet := config.pallet }).fits
                      then (findBestArrangement sku
                        { masterpack :=
                            { external := boxDims
                            , wall_thickness_in := config.masterpack.wall_thickness_in
                            , tare_lb := config.masterpack.tare_lb }
                        , solver := config.solver
                        , pallet := config.pallet }).count
                      else 0 : ℤ)) : ℚ) / sku.current_baseline
                else 1)).sum / (skus.length : ℚ)
        ∧ ∀ (palletFit2 : PalletFitResult),
            (scoreBoxCandidate boxDims skus config palletFit2).allFit
              = (scoreBoxCandidate boxDims skus config palletFit).allFit := by
  intro boxDims skus config palletFit hfit
  refine ⟨?_, ?_, ?_⟩
  · rcases scoreBoxCandidate_score_cases boxDims skus config palletFit with ⟨hf, _⟩ | ⟨_, hs⟩
    · rw [hfit] at hf
      exact absurd hf (by simp)
    · rw [hs, scoreBoxCandidate_totalVolume]
      by_cases hci : palletFit.canInterlock <;> simp [hci] <;> ring
  · simp [scoreBoxCandidate, apply_ite ScoreResult.avgBaselineRatio, List.map_map,
      Function.comp_def, List.length_map]
  · intro palletFit2
    rw [scoreBoxCandidate_allFit_eq, scoreBoxCandidate_allFit_eq]

/-- Witness for C2: a single 12×12×12 product in a wall-less 12×12×12
candidate, where all products fit and interlocking is feasible. -/
theorem C2_witness :
    (scoreBoxCandidate ⟨12, 12, 12⟩ [⟨"cube12", 12, 12, 12, 16, 0⟩] (demoConfig ⟨12, 12, 12⟩)
        (checkPalletFit ⟨12, 12, 12⟩ (demoConfig ⟨12, 12, 12⟩).pallet)).score
      = 500 * (scoreBoxCandidate ⟨12, 12, 12⟩ [⟨"cube12", 12, 12, 12, 16, 0⟩]
            (demoConfig ⟨12, 12, 12⟩)
            (checkPalletFit ⟨12, 12, 12⟩ (demoConfig ⟨12, 12, 12⟩).pallet)).avgUtilization
        - ((12 : ℚ) * 12 * 12) * (1 / 10)
        + 300 * (scoreBoxCandidate ⟨12, 12, 12⟩ [⟨"cube12", 12, 12, 12, 16, 0⟩]
            (demoConfig ⟨12, 12, 12⟩)
            (checkPalletFit ⟨12, 12, 12⟩ (demoConfig ⟨12, 12, 12⟩).pallet)).avgBaselineRatio
        + (if (checkPalletFit ⟨12, 12, 12⟩ (demoConfig ⟨12, 12, 12⟩).pallet).canInterlock
           then 200 + 300 * (checkPalletFit ⟨12, 12, 12⟩ (demoConfig ⟨12, 12, 12⟩).pallet).avgCoverage
           else 0) :=
  (C2_score_formula_of_allFit ⟨12, 12, 12⟩ [⟨"cube12", 12, 12, 12, 16, 0⟩]
    (demoConfig ⟨12, 12, 12⟩) (checkPalletFit ⟨12, 12, 12⟩ (demoConfig ⟨12, 12, 12⟩).pallet)
    (by with_unfolding_all rfl)).1

/-- Every candidate surviving the `score > 0` filter of
`findOptimalMasterpack` fits all products and has a positive score. -/
theorem mem_scored_filter_props {skus : List Sku} {config : Config}
    {minDim maxDim step : ℚ} {c : ScoredCandidate}
    (h : c ∈ ((generateCandidateDimensions minDim maxDim step).map (fun dims =>
        ScoredCandidate.ofScore dims
          (scoreBoxCandidate dims skus config (checkPalletFit dims config.pallet)))).filter
        (fun c => c.score > 0)) :
    c.allFit = true ∧ 0 < c.score := by
  obtain ⟨hmem, hpos⟩ := List.mem_filter.mp h
  have hpos' : 0 < c.score := by simpa using of_decide_eq_true hpos
  obtain ⟨dims, _, hdeq⟩ := List.mem_map.mp hmem
  subst hdeq
  refine ⟨?_, hpos'⟩
  have hall := scoreBoxCandidate_pos_allFit dims skus config (checkPalletFit dims config.pallet)
    (by simpa [ScoredCandidate.ofScore] using hpos')
  simpa [ScoredCandidate.ofScore] using hall

/-- C1: a candidate in which at least one product fails to fit receives the
sentinel score −1000; every candidate in the returned `topCandidates` fits
all products with a score above the sentinel; and when no candidate fits all
products the search returns an explicit empty result (`optimal` absent,
no top candidates, zero valid candidates) rather than a degraded candidate. -/
theorem C1_sentinel_rank_and_empty_result :
    (∀ (boxDims : Dims3) (skus : List Sku) (config : Config) (palletFit : PalletFitResult),
        (∃ sku ∈ skus, (findBestArrangement sku
            { masterpack :=
                { external := boxDims
                , wall_thickness_in := config.masterpack.wall_thickness_in
                , tare_lb := config.masterpack.tare_lb }
            , solver := config.solver
            , pallet := config.pallet }).fits = false) →
        (scoreBoxCandidate boxDims skus config palletFit).score = -1000)
      ∧ (∀ (skus : List Sku) (config : Config) (minDim maxDim step : ℚ),
          ((findOptimalMasterpack skus config minDim maxDim step).topCandidates.all
            (fun c => c.allFit && decide ((-1000 : ℚ) < c.score))) = true)
      ∧ (∀ (skus : List Sku) (config : Config) (minDim maxDim step : ℚ),
          (∀ dims ∈ generateCandidateDimensions minDim maxDim step,
            (scoreBoxCandidate dims skus config (checkPalletFit dims config.pallet)).allFit
              = false) →
          (findOptimalMasterpack skus config minDim maxDim step).optimal = none
            ∧ (findOptimalMasterpack skus config minDim maxDim step).topCandidates = []
            ∧ (findOptimalMasterpack skus config minDim maxDim step).validCandidates = 0) := by
  refine ⟨?_, ?_, ?_⟩
  · rintro boxDims skus config palletFit ⟨sku, hmem, hf⟩
    apply scoreBoxCandidate_unfit_score
    rw [scoreBoxCandidate_allFit_eq]
    cases hall : skus.all (fun sku => (findBestArrangement sku
        { masterpack :=
            { external := boxDims
            , wall_thickness_in := config.masterpack.wall_thickness_in
            , tare_lb := config.masterpack.tare_lb }
        , solver := config.solver
        , pallet := config.pallet }).fits) with
    | false => rfl
    | true =>
      have htrue := List.all_eq_true.mp hall sku hmem
      rw [hf] at htrue
      exact absurd htrue (by simp)
  · intro skus config minDim maxDim step
    rw [List.all_eq_true]
    intro c hc
    simp only [findOptimalMasterpack] at hc
    have hc2 := mem_sortByScoreDesc (List.take_subset 5 _ hc)
    obtain ⟨hf, hp⟩ := mem_scored_filter_props hc2
    simp only [hf, Bool.true_and, decide_eq_true_eq]
    linarith
  · intro skus config minDim maxDim step hall
    have hnil : ((generateCandidateDimensions minDim maxDim step).map (fun dims =>
        ScoredCandidate.ofScore dims
          (scoreBoxCandidate dims skus config (checkPalletFit dims config.pallet)))).filter
        (fun c => c.score > 0) = [] := by
      rw [List.filter_eq_nil_iff]
      intro c hc
      obtain ⟨dims, hd, hdeq⟩ := List.mem_map.mp hc
      subst hdeq
      have hscore := scoreBoxCandidate_unfit_score dims skus config
        (checkPalletFit dims config.pallet) (hall dims hd)
      simp [ScoredCandidate.ofScore, hscore]
    refine ⟨?_, ?_, ?_⟩ <;> simp only [findOptimalMasterpack] <;> rw [hnil] <;>
      simp [sortByScoreDesc]

/-- Witness for C1: a 20×20×20 product never fits the single 18×18×18
candidate of the degenerate sweep, so the candidate is scored −1000 and the
search reports the explicit empty result. -/
theorem C1_witness :
    (scoreBoxCandidate ⟨18, 18, 18⟩ [⟨"cube20", 20, 20, 20, 16, 0⟩] (demoConfig ⟨18, 18, 18⟩)
        (checkPalletFit ⟨18, 18, 18⟩ (demoConfig ⟨18, 18, 18⟩).pallet)).score = -1000
      ∧ ((findOptimalMasterpack [⟨"cube20", 20, 20, 20, 16, 0⟩] (demoConfig ⟨18, 18, 18⟩)
            18 18 1).topCandidates.all
          (fun c => c.allFit && decide ((-1000 : ℚ) < c.score))) = true
      ∧ (findOptimalMasterpack [⟨"cube20", 20, 20, 20, 16, 0⟩] (demoConfig ⟨18, 18, 18⟩)
          18 18 1).optimal = none
      ∧ (findOptimalMasterpack [⟨"cube20", 20, 20, 20, 16, 0⟩] (demoConfig ⟨18, 18, 18⟩)
          18 18 1).topCandidates = []
      ∧ (findOptimalMasterpack [⟨"cube20", 20, 20, 20, 16, 0⟩] (demoConfig ⟨18, 18, 18⟩)
          18 18 1).validCandidates = 0 := by
  obtain ⟨h1, h2, h3⟩ := C1_sentinel_rank_and_empty_result
  refine ⟨?_, ?_, ?_⟩
  · exact h1 ⟨18, 18, 18⟩ [⟨"cube20", 20, 20, 20, 16, 0⟩] (demoConfig ⟨18, 18, 18⟩)
      (checkPalletFit ⟨18, 18, 18⟩ (demoConfig ⟨18, 18, 18⟩).pallet)
      ⟨⟨"cube20", 20, 20, 20, 16, 0⟩, List.mem_singleton.mpr rfl, by with_unfolding_all rfl⟩
  · exact h2 [⟨"cube20", 20, 20, 20, 16, 0⟩] (demoConfig ⟨18, 18, 18⟩) 18 18 1
  · exact h3 [⟨"cube20", 20, 20, 20, 16, 0⟩] (demoConfig ⟨18, 18, 18⟩) 18 18 1
      (fun dims hd => by
        have : dims = (⟨18, 18, 18⟩ : Dims3) := by
          have hlist : generateCandidateDimensions 18 18 1 = [⟨18, 18, 18⟩] := by
            with_unfolding_all rfl
          rw [hlist] at hd
          exact List.mem_singleton.mp hd
        rw [this, scoreBoxCandidate_allFit_eq]
        with_unfolding_all rfl)

/-- C10: every candidate returned by `findOptimalMasterpack` (the optimal and
every top candidate) has `allFit = true` and a score strictly above 0; and a
candidate in which every product fits but whose score is ≤ 0 is reachable and
silently excluded: for the single 24×24×24 candidate with one 13×13×13
product, all products fit yet the search reports zero valid candidates and no
optimal even though a fitting candidate was swept. -/
theorem C10_positive_score_filter_drops_fitting_candidates :
    (∀ (skus : List Sku) (config : Config) (minDim maxDim step : ℚ),
        ((findOptimalMasterpack skus config minDim maxDim step).topCandidates.all
          (fun c => c.allFit && decide (0 < c.score))) = true
          ∧ (Option.all (fun c => c.allFit && decide (0 < c.score))
              (findOptimalMasterpack skus config minDim maxDim step).optimal) = true)
      ∧ ((scoreBoxCandidate ⟨24, 24, 24⟩ [⟨"cube13", 13, 13, 13, 16, 0⟩]
            (demoConfig ⟨24, 24, 24⟩)
            (checkPalletFit ⟨24, 24, 24⟩ (demoConfig ⟨24, 24, 24⟩).pallet)).allFit = true
          ∧ (scoreBoxCandidate ⟨24, 24, 24⟩ [⟨"cube13", 13, 13, 13, 16, 0⟩]
              (demoConfig ⟨24, 24, 24⟩)
              (checkPalletFit ⟨24, 24, 24⟩ (demoConfig ⟨24, 24, 24⟩).pallet)).score ≤ 0
          ∧ (findOptimalMasterpack [⟨"cube13", 13, 13, 13, 16, 0⟩] (demoConfig ⟨24, 24, 24⟩)
              24 24 1).totalTested = 1
          ∧ (findOptimalMasterpack [⟨"cube13", 13, 13, 13, 16, 0⟩] (demoConfig ⟨24, 24, 24⟩)
              24 24 1).validCandidates = 0
          ∧ (findOptimalMasterpack [⟨"cube13", 13, 13, 13, 16, 0⟩] (demoConfig ⟨24, 24, 24⟩)
              24 24 1).optimal = none) := by
  constructor
  · intro skus config minDim maxDim step
    constructor
    · rw [List.all_eq_true]
      intro c hc
      simp only [findOptimalMasterpack] at hc
      have hc2 := mem_sortByScoreDesc (List.take_subset 5 _ hc)
      obtain ⟨hf, hp⟩ := mem_scored_filter_props hc2
      simp only [hf, Bool.true_and, decide_eq_true_eq]
      exact hp
    · simp only [findOptimalMasterpack]
      cases hs : sortByScoreDesc (((generateCandidateDimensions minDim maxDim step).map
          (fun dims => ScoredCandidate.ofScore dims
            (scoreBoxCandidate dims skus config (checkPalletFit dims config.pallet)))).filter
          (fun c => c.score > 0)) with
      | nil => simp
      | cons x xs =>
        have hx : x ∈ sortByScoreDesc (((generateCandidateDimensions minDim maxDim step).map
            (fun dims => ScoredCandidate.ofScore dims
              (scoreBoxCandidate dims skus config (checkPalletFit dims config.pallet)))).filter
            (fun c => c.score > 0)) := by
          rw [hs]
          exact List.mem_cons_self x xs
        obtain ⟨hf, hp⟩ := mem_scored_filter_props (mem_sortByScoreDesc hx)
        simp [List.head?, Option.all_some, hf, hp]
  · refine ⟨?_, of_decide_eq_true ?_, ?_, ?_, ?_⟩ <;> with_unfolding_all rfl

/-- The chosen layer's container count, by validity of the two orientations:
the best valid orientation, or the overall best when neither is valid. -/
theorem calculateColumnPattern_count (c : Dims3) (p : Pallet) (m : ℚ) :
    (calculateColumnPattern c p m).wide * (calculateColumnPattern c p m).long
      = (if optionValid (columnOption1 c p) m ∧ optionValid (columnOption2 c p) m
         then max ((columnOption1 c p).wide * (columnOption1 c p).long)
                  ((columnOption2 c p).wide * (columnOption2 c p).long)
         else if optionValid (columnOption1 c p) m
         then (columnOption1 c p).wide * (columnOption1 c p).long
         else if optionValid (columnOption2 c p) m
         then (columnOption2 c p).wide * (columnOption2 c p).long
         else max ((columnOption1 c p).wide * (columnOption1 c p).long)
                  ((columnOption2 c p).wide * (columnOption2 c p).long)) := by
  simp only [calculateColumnPattern]
  split_ifs with h1 h2 h3 h4 h5 <;>
    first
      | rfl
      | (exact (max_eq_left (by linarith)).symm)
      | (exact (max_eq_right (by linarith)).symm)

/-- The `exceedsOverhang` flag is clear exactly when some orientation is
within the overhang limit. -/
theorem calculateColumnPattern_exceeds_iff (c : Dims3) (p : Pallet) (m : ℚ) :
    (calculateColumnPattern c p m).exceedsOverhang = false
      ↔ (optionValid (columnOption1 c p) m ∨ optionValid (columnOption2 c p) m) := by
  simp only [calculateColumnPattern]
  split_ifs with h1 h2 h3 <;>
    simp_all [columnOption1, columnOption2]

/-- C7 counterexample: raising the overhang limit can decrease the chosen
layer's container count.  For case 1×10 on a 32×11 pallet footprint, the
limit 0 admits neither orientation, so the fallback returns the higher-count
rotated layout (11·3 = 33); the limit 1 admits only the unrotated layout
(1·32 = 32), a strictly smaller count. -/
theorem C7_counterexample_overhang_not_monotone :
    (0 : ℚ) ≤ 1
      ∧ (calculateColumnPattern ⟨1, 10, 5⟩ ⟨32, 11, 6⟩ 0).wide
          * (calculateColumnPattern ⟨1, 10, 5⟩ ⟨32, 11, 6⟩ 0).long = 33
      ∧ (calculateColumnPattern ⟨1, 10, 5⟩ ⟨32, 11, 6⟩ 1).wide
          * (calculateColumnPattern ⟨1, 10, 5⟩ ⟨32, 11, 6⟩ 1).long = 32 := by
  refine ⟨by norm_num, ?_, ?_⟩ <;> with_unfolding_all rfl

/-- C7 amended: increasing `maxOverhang` never decreases the chosen layer's
container count provided the smaller limit admits at least one orientation
(the chosen layer does not carry `exceedsOverhang`).  When neither
orientation is admitted the fallback already returns the maximum-count
orientation, and raising the limit into a window admitting only the
lower-count orientation can decrease the count. -/
theorem C7_amended_monotone_when_within_limit :
    ∀ (caseDims : Dims3) (palletDims : Pallet) (m1 m2 : ℚ), m1 ≤ m2 →
      (calculateColumnPattern caseDims palletDims m1).exceedsOverhang = false →
      (calculateColumnPattern caseDims palletDims m1).wide
          * (calculateColumnPattern caseDims palletDims m1).long
        ≤ (calculateColumnPattern caseDims palletDims m2).wide
          * (calculateColumnPattern caseDims palletDims m2).long := by
  intro c p m1 m2 hm hflag
  have hor := (calculateColumnPattern_exceeds_iff c p m1).mp hflag
  have hmono1 : optionValid (columnOption1 c p) m1 → optionValid (columnOption1 c p) m2 :=
    fun h => ⟨h.1.trans hm, h.2.trans hm⟩
  have hmono2 : optionValid (columnOption2 c p) m1 → optionValid (columnOption2 c p) m2 :=
    fun h => ⟨h.1.trans hm, h.2.trans hm⟩
  rw [calculateColumnPattern_count, calculateColumnPattern_count]
  split_ifs <;>
    first
      | exact le_refl _
      | exact le_max_left _ _
      | exact le_max_right _ _
      | tauto

/-- Witness for C7's amended statement: case 12×10 on the 48×40 pallet is
within a zero overhang limit, and the count never drops as the limit rises
to 5. -/
theorem C7_witness :
    (calculateColumnPattern ⟨12, 10, 5⟩ ⟨48, 40, 6⟩ 0).wide
        * (calculateColumnPattern ⟨12, 10, 5⟩ ⟨48, 40, 6⟩ 0).long
      ≤ (calculateColumnPattern ⟨12, 10, 5⟩ ⟨48, 40, 6⟩ 5).wide
        * (calculateColumnPattern ⟨12, 10, 5⟩ ⟨48, 40, 6⟩ 5).long :=
  C7_amended_monotone_when_within_limit ⟨12, 10, 5⟩ ⟨48, 40, 6⟩ 0 5
    (by norm_num) (by with_unfolding_all rfl)

/-- C8: `calculateColumnPattern` prefers the higher-count orientation among
those within the overhang limit; with exactly one valid orientation it
returns that orientation; with none it still returns the higher-count
orientation flagged `exceedsOverhang = true` — a degraded result, never a
failure. -/
theorem C8_orientation_selection_policy :
    ∀ (caseDims : Dims3) (palletDims : Pallet) (maxOverhang : ℚ),
      (optionValid (columnOption1 caseDims palletDims) maxOverhang →
        optionValid (columnOption2 caseDims palletDims) maxOverhang →
        (calculateColumnPattern caseDims palletDims maxOverhang).wide
            * (calculateColumnPattern caseDims palletDims maxOverhang).long
          = max ((columnOption1 caseDims palletDims).wide
                  * (columnOption1 caseDims palletDims).long)
                ((columnOption2 caseDims palletDims).wide
                  * (columnOption2 caseDims palletDims).long)
          ∧ (calculateColumnPattern caseDims palletDims maxOverhang).exceedsOverhang = false)
      ∧ (optionValid (columnOption1 caseDims palletDims) maxOverhang →
          ¬optionValid (columnOption2 caseDims palletDims) maxOverhang →
          calculateColumnPattern caseDims palletDims maxOverhang
            = columnOption1 caseDims palletDims)
      ∧ (¬optionValid (columnOption1 caseDims palletDims) maxOverhang →
          optionValid (columnOption2 caseDims palletDims) maxOverhang →
          calculateColumnPattern caseDims palletDims maxOverhang
            = columnOption2 caseDims palletDims)
      ∧ (¬optionValid (columnOption1 caseDims palletDims) maxOverhang →
          ¬optionValid (columnOption2 caseDims palletDims) maxOverhang →
          (calculateColumnPattern caseDims palletDims maxOverhang).exceedsOverhang = true
            ∧ (calculateColumnPattern caseDims palletDims maxOverhang).wide
                * (calculateColumnPattern caseDims palletDims maxOverhang).long
              = max ((columnOption1 caseDims palletDims).wide
                      * (columnOption1 caseDims palletDims).long)
                    ((columnOption2 caseDims palletDims).wide
                      * (columnOption2 caseDims palletDims).long)) := by
  intro c p m
  refine ⟨?_, ?_, ?_, ?_⟩
  · intro h1 h2
    constructor
    · rw [calculateColumnPattern_count, if_pos ⟨h1, h2⟩]
    · rw [calculateColumnPattern_exceeds_iff]
      exact Or.inl h1
  · intro h1 h2
    simp only [calculateColumnPattern]
    rw [if_neg (fun h => h2 h.2), if_pos h1]
  · intro h1 h2
    simp only [calculateColumnPattern]
    rw [if_neg (fun h => h1 h.1), if_neg h1, if_pos h2]
  · intro h1 h2
    constructor
    · simp only [calculateColumnPattern]
      rw [if_neg (fun h => h1 h.1), if_neg h1, if_neg h2]
      split_ifs <;> rfl
    · rw [calculateColumnPattern_count, if_neg (fun h => h1 h.1), if_neg h1, if_neg h2]

/-- Witness for C8 at case 12×10 on the 48×40 pallet with limit 10, where
both orientations are within the limit. -/
theorem C8_witness :
    (calculateColumnPattern ⟨12, 10, 5⟩ ⟨48, 40, 6⟩ 10).wide
        * (calculateColumnPattern ⟨12, 10, 5⟩ ⟨48, 40, 6⟩ 10).long
      = max ((columnOption1 ⟨12, 10, 5⟩ ⟨48, 40, 6⟩).wide
              * (columnOption1 ⟨12, 10, 5⟩ ⟨48, 40, 6⟩).long)
            ((columnOption2 ⟨12, 10, 5⟩ ⟨48, 40, 6⟩).wide
              * (columnOption2 ⟨12, 10, 5⟩ ⟨48, 40, 6⟩).long)
      ∧ (calculateColumnPattern ⟨12, 10, 5⟩ ⟨48, 40, 6⟩ 10).exceedsOverhang = false :=
  (C8_orientation_selection_policy ⟨12, 10, 5⟩ ⟨48, 40, 6⟩ 10).1
    (of_decide_eq_true (by with_unfolding_all rfl))
    (of_decide_eq_true (by with_unfolding_all rfl))
